import Mathlib

/-!
# Verification of the AlphaFold bridge client (src/python/alphafold_bridge.py)

Shallow embedding of the `AlphaFoldBridge` class. The external world
(HTTP transport via `requests`, and the wall clock via `time.sleep`) is
modelled as an oracle supplying the outcome of each call; every outcome a
call can have in Python (an exception, or a response value) is a case of
the oracle. Python exceptions that escape a function are modelled with
`Except PyErr`; exceptions swallowed by a `try/except` inside a function
are resolved internally, exactly where the source resolves them. Each
operation also returns the trace of external calls it performed
(`List Event`), so that "zero transport calls", "exactly 60 status
queries" and "no inter-attempt wait" are provable statements.

Floating-point values (pLDDT scores and the PAE matrix) are never computed
with by the bridge, only copied from the confidence payload into the
result; they are represented by `Rat`.
-/

deriving instance DecidableEq for Except

namespace AlphaFold

/-- A Python exception escaping a function in the modelled fragment:
`KeyError` from a mandatory `config[...]` lookup, `IndexError` from
`stoichiometry[i]`. -/
inductive PyErr where
  | keyError (key : String)
  | indexError
deriving Repr, DecidableEq

/-- `str(e)` for the modelled exceptions: `str(KeyError('k'))` is `"'k'"`,
`str(IndexError(...))` for a list over-index is `"list index out of range"`. -/
def pyErrMsg : PyErr → String
  | .keyError k => "'" ++ k ++ "'"
  | .indexError => "list index out of range"

/-- Parsed JSON body of `GET /jobs/{jobId}` (`job_data` in `_poll_job_status`):
all fields read with `.get`, hence optional. -/
structure StatusJson where
  status : Option String := none
  pdbUrl : Option String := none
  confidenceUrl : Option String := none
deriving Repr, DecidableEq

/-- Parsed JSON body of the confidence-data fetch (`confidence_data`):
all fields read with `.get`, hence optional. -/
structure ConfidenceJson where
  plddt : Option (List Rat) := none
  meanPlddt : Option Rat := none
  pae : Option (List (List Rat)) := none
deriving Repr, DecidableEq

/-- Response of one status query `requests.get(status_url, ...)`:
the HTTP status code, and the outcome of `response.json()` (which can
itself raise; the exception text is the `String`). -/
structure PollResponse where
  status_code : Nat
  json : Except String StatusJson
deriving Repr, DecidableEq

/-- Oracle for one iteration of the poll loop: the outcome of the status
query, and — consulted only when the body reaches them — the outcomes of
the structure-file fetch (`requests.get(pdb_url).text`) and the
confidence-data fetch (`requests.get(confidence_url).json()`).
`Except.error s` means the Python call raised an exception with text `s`. -/
structure PollAttemptWorld where
  statusQuery : Except String PollResponse
  pdbFetch : Except String String
  confFetch : Except String ConfidenceJson
deriving Repr, DecidableEq

/-- Parsed JSON body of a 202 submission response (`job_data` in
`_predict_via_api` / `predict_multimer`): `jobId` read with `.get`. -/
structure SubmitJson where
  jobId : Option String := none
deriving Repr, DecidableEq

/-- Response of `requests.post(submit_url, ...)`: status code, raw body
text (`response.text`), and the outcome of `response.json()`. -/
structure SubmitResponse where
  status_code : Nat
  text : String
  json : Except String SubmitJson
deriving Repr, DecidableEq

/-- Oracle for a whole prediction call: the outcome of the one submission
POST, and the per-attempt poll oracle. -/
structure ApiWorld where
  submit : Except String SubmitResponse
  poll : Nat → PollAttemptWorld

/-- The JSON payload built for `POST /predict`. The multimer path sends no
`useTemplates` key, hence the `Option`. -/
structure SubmitPayload where
  sequences : List String
  modelPreset : String
  numPredictions : Int
  useTemplates : Option Bool
deriving Repr, DecidableEq

/-- Trace of external calls made by an operation. `sleep` is
`time.sleep(poll_interval)`; all other events are network calls. -/
inductive Event where
  | submitCall (payload : SubmitPayload)
  | statusQuery
  | pdbFetch
  | confFetch
  | sleep
deriving Repr, DecidableEq

/-- `true` for network calls, `false` for `sleep`. -/
def Event.isNetwork : Event → Bool
  | .sleep => false
  | _ => true

/-- The result dictionary returned by every prediction path. Fields are
`Option` because each return site populates a different subset of keys;
`none` models an absent key (for `job_id` and `pae_data`, also a `None`
value, which the claims never need to distinguish). -/
structure PredictionResult where
  status : String
  error : Option String := none
  message : Option String := none
  job_id : Option String := none
  pdb_data : Option String := none
  confidence_scores : Option (List Rat) := none
  mean_plddt : Option Rat := none
  pae_data : Option (List (List Rat)) := none
deriving Repr, DecidableEq

/-- The dictionary returned by `get_status`. `python_version` is
`sys.version`, an environment string passed through unchanged. -/
structure StatusReport where
  api_available : Bool
  colabfold_available : Bool
  python_version : String
  module : String
  version : String
deriving Repr, DecidableEq

/-- State of an `AlphaFoldBridge` instance after `__init__`:
`api_key` is the truthy value of `api_key or os.getenv('ALPHAFOLD_API_KEY')`
(`none` when both are unset or empty, since Python tests `not self.api_key`);
`colabfold_available` is the result of the import probe. -/
structure AlphaFoldBridge where
  api_key : Option String
  colabfold_available : Bool
deriving Repr, DecidableEq

/-- The success dictionary built after a `completed` status and two
successful artifact fetches (lines 186-193 of the source). -/
def successResult (job_id : Option String) (pdb_data : String)
    (confidence_data : ConfidenceJson) : PredictionResult :=
  { status := "success"
    job_id := job_id
    pdb_data := some pdb_data
    confidence_scores := some (confidence_data.plddt.getD [])
    mean_plddt := some (confidence_data.meanPlddt.getD 0)
    pae_data := confidence_data.pae }

/-- The dictionary returned on a `failed` job status (lines 195-199). -/
def jobFailedResult (job_id : Option String) : PredictionResult :=
  { status := "failed"
    error := some "Prediction job failed"
    job_id := job_id }

/-- The dictionary returned when the attempt budget is exhausted
(lines 208-212). -/
def timeoutResult (job_id : Option String) : PredictionResult :=
  { status := "failed"
    error := some "Job timeout after 10 minutes"
    job_id := job_id }

/-- `max_polls = 60` (line 168). -/
def max_polls : Nat := 60

/-- One iteration of the `for attempt in range(max_polls)` body
(lines 171-206): returns the events of the iteration and `some result`
when the iteration executes a `return`, `none` when it falls through to
the next attempt. A raised exception anywhere in the body is caught by
the `except Exception` clause, which sleeps and continues; a non-200
response skips the whole `if` body, neither sleeping nor returning. -/
def pollOnce (job_id : Option String) (w : PollAttemptWorld) :
    List Event × Option PredictionResult :=
  match w.statusQuery with
  | Except.error _ => ([Event.statusQuery, Event.sleep], none)
  | Except.ok resp =>
    if resp.status_code = 200 then
      match resp.json with
      | Except.error _ => ([Event.statusQuery, Event.sleep], none)
      | Except.ok job_data =>
        if job_data.status = some "completed" then
          match w.pdbFetch with
          | Except.error _ => ([Event.statusQuery, Event.pdbFetch, Event.sleep], none)
          | Except.ok pdb_data =>
            match w.confFetch with
            | Except.error _ =>
              ([Event.statusQuery, Event.pdbFetch, Event.confFetch, Event.sleep], none)
            | Except.ok confidence_data =>
              ([Event.statusQuery, Event.pdbFetch, Event.confFetch],
               some (successResult job_id pdb_data confidence_data))
        else if job_data.status = some "failed" then
          ([Event.statusQuery], some (jobFailedResult job_id))
        else
          ([Event.statusQuery, Event.sleep], none)
    else
      ([Event.statusQuery], none)

/-- The poll loop from attempt index `attempt` with `fuel` attempts left:
runs `pollOnce` per attempt, concatenating traces; when the budget is
exhausted, returns the timeout dictionary. -/
def pollLoop (job_id : Option String) (world : Nat → PollAttemptWorld) :
    Nat → Nat → List Event × PredictionResult
  | 0, _ => ([], timeoutResult job_id)
  | fuel + 1, attempt =>
    match pollOnce job_id (world attempt) with
    | (evs, some r) => (evs, r)
    | (evs, none) =>
      let rest := pollLoop job_id world fuel (attempt + 1)
      (evs ++ rest.1, rest.2)

/-- `AlphaFoldBridge._poll_job_status` (lines 156-212): the full loop with
the 60-attempt budget. The loop body never lets an exception escape
(its `try` covers the whole body), so the function always returns a
dictionary. -/
def poll_job_status (job_id : Option String) (world : Nat → PollAttemptWorld) :
    List Event × PredictionResult :=
  pollLoop job_id world max_polls 0

/-- The configuration dictionary passed to `predict_structure` /
`predict_multimer`: each key the source reads, `none` when absent.
Values carry the types the source expects of them. -/
structure Config where
  sequence : Option String := none
  sequences : Option (List String) := none
  job_name : Option String := none
  mode : Option String := none
  num_models : Option Int := none
  use_templates : Option Bool := none
  stoichiometry : Option (List Int) := none
deriving Repr, DecidableEq

/-- Missing-credential dictionary of `_predict_via_api` (lines 108-113). -/
def missingKeyResult : PredictionResult :=
  { status := "failed"
    error := some "AlphaFold API key not set. Set ALPHAFOLD_API_KEY environment variable."
    message := some "API mode requires authentication" }

/-- Dictionary built by the `except Exception` clause of `_predict_via_api`
(lines 149-154), where `e` is `str(e)` of the caught exception. -/
def apiExceptionResult (e : String) : PredictionResult :=
  { status := "failed"
    error := some e
    message := some ("AlphaFold API prediction failed: " ++ e) }

/-- Non-202 submission dictionary of `_predict_via_api` (lines 142-147):
carries the status code and the raw response body. -/
def submitRejectedResult (code : Nat) (body : String) : PredictionResult :=
  { status := "failed"
    error := some ("API request failed: " ++ toString code)
    message := some body }

/-- The `POST /predict` payload of `_predict_via_api` (lines 122-127). -/
def apiPayload (sequence : String) (num_models : Int) (use_templates : Bool) :
    SubmitPayload :=
  { sequences := [sequence]
    modelPreset := if num_models = 1 then "monomer" else "multimer"
    numPredictions := num_models
    useTemplates := some use_templates }

/-- `AlphaFoldBridge._predict_via_api` (lines 93-154). The `try` block
covers everything from the submission call onward, including the call to
`_poll_job_status` (which never raises); so the function never raises. -/
def predict_via_api (b : AlphaFoldBridge) (sequence _job_name : String)
    (num_models : Int) (use_templates : Bool) (w : ApiWorld) :
    List Event × PredictionResult :=
  match b.api_key with
  | none => ([], missingKeyResult)
  | some _ =>
    let payload : SubmitPayload := apiPayload sequence num_models use_templates
    match w.submit with
    | Except.error e => ([Event.submitCall payload], apiExceptionResult e)
    | Except.ok response =>
      if response.status_code = 202 then
        match response.json with
        | Except.error e => ([Event.submitCall payload], apiExceptionResult e)
        | Except.ok job_data =>
          let rest := poll_job_status job_data.jobId w.poll
          (Event.submitCall payload :: rest.1, rest.2)
      else
        ([Event.submitCall payload],
         submitRejectedResult response.status_code response.text)

/-- `ColabFold not installed` dictionary (lines 226-230). -/
def colabfoldUnavailableResult : PredictionResult :=
  { status := "failed"
    error := some "ColabFold not installed"
    message := some "Install ColabFold: pip install colabfold" }

/-- Stub dictionary of the local path (lines 239-243). -/
def colabfoldStubResult : PredictionResult :=
  { status := "failed"
    error := some "Local ColabFold prediction not yet implemented"
    message := some "Use API mode for now: mode=\"api\"" }

/-- `AlphaFoldBridge._predict_via_colabfold` (lines 214-250): returns one
of two fixed dictionaries, makes no external call, never raises. -/
def predict_via_colabfold (b : AlphaFoldBridge) (_sequence _job_name : String)
    (_num_models : Int) : List Event × PredictionResult :=
  if b.colabfold_available then ([], colabfoldStubResult)
  else ([], colabfoldUnavailableResult)

/-- Unknown-mode dictionary of `predict_structure` (lines 88-91). -/
def unknownModeResult (mode : String) : PredictionResult :=
  { status := "failed"
    error := some ("Unknown prediction mode: " ++ mode) }

/-- `AlphaFoldBridge.predict_structure` (lines 56-91). `config['sequence']`
(line 77) is an unguarded mandatory lookup: a missing key raises
`KeyError` out of the method, modelled as `Except.error`. All other keys
are read with `.get` and a default. -/
def predict_structure (b : AlphaFoldBridge) (config : Config) (w : ApiWorld) :
    Except PyErr (List Event × PredictionResult) :=
  match config.sequence with
  | none => Except.error (PyErr.keyError "sequence")
  | some sequence =>
    let job_name := config.job_name.getD "holoscript_prediction"
    let mode := config.mode.getD "api"
    let num_models := config.num_models.getD 5
    let use_templates := config.use_templates.getD false
    if mode = "api" then
      Except.ok (predict_via_api b sequence job_name num_models use_templates w)
    else if mode = "local" then
      Except.ok (predict_via_colabfold b sequence job_name num_models)
    else
      Except.ok ([], unknownModeResult mode)

/-- The chain-expansion loop of `predict_multimer` (lines 282-285):
`for i, seq in enumerate(sequences): for _ in range(stoichiometry[i]):
chains.append({'sequence': seq})`. The source pairs `sequences[i]` with
`stoichiometry[i]` positionally and raises `IndexError` at the first `i`
with no stoichiometry entry; this lockstep recursion performs the same
positional pairing. `range` of a non-positive count is empty, hence
`Int.toNat`. -/
def buildChains : List String → List Int → Except PyErr (List String)
  | [], _ => Except.ok []
  | _ :: _, [] => Except.error PyErr.indexError
  | seq :: restSeqs, count :: restCounts =>
    match buildChains restSeqs restCounts with
    | Except.error e => Except.error e
    | Except.ok tail => Except.ok (List.replicate count.toNat seq ++ tail)

/-- Missing-credential dictionary of `predict_multimer` (lines 270-273). -/
def multimerNoKeyResult : PredictionResult :=
  { status := "failed"
    error := some "Multimer prediction requires API access" }

/-- Dictionary built by the `except Exception` clause of `predict_multimer`
(lines 306-311), where `e` is `str(e)` of the caught exception. -/
def multimerExceptionResult (e : String) : PredictionResult :=
  { status := "failed"
    error := some e
    message := some ("Multimer prediction failed: " ++ e) }

/-- Non-202 submission dictionary of `predict_multimer` (lines 301-304):
unlike `_predict_via_api`, it has no `message` key, so the response body
is dropped. -/
def multimerRejectedResult (code : Nat) : PredictionResult :=
  { status := "failed"
    error := some ("Multimer API request failed: " ++ toString code) }

/-- The `POST /predict` payload of `predict_multimer` (lines 287-291). -/
def multimerPayload (chains : List String) : SubmitPayload :=
  { sequences := chains
    modelPreset := "multimer"
    numPredictions := 5
    useTemplates := none }

/-- `AlphaFoldBridge.predict_multimer` (lines 252-311). `config['sequences']`
(line 265) is an unguarded mandatory lookup raising `KeyError` when
absent. `stoichiometry` defaults to `[1] * len(sequences)` (line 266).
The `try` block starts after the credential check and covers the
chain-expansion loop, so its `IndexError` is converted to a failure
dictionary by the `except Exception` clause. -/
def predict_multimer (b : AlphaFoldBridge) (config : Config) (w : ApiWorld) :
    Except PyErr (List Event × PredictionResult) :=
  match config.sequences with
  | none => Except.error (PyErr.keyError "sequences")
  | some sequences =>
    let stoichiometry := config.stoichiometry.getD (List.replicate sequences.length 1)
    let _job_name := config.job_name.getD "multimer_prediction"
    match b.api_key with
    | none => Except.ok ([], multimerNoKeyResult)
    | some _ =>
      match buildChains sequences stoichiometry with
      | Except.error e => Except.ok ([], multimerExceptionResult (pyErrMsg e))
      | Except.ok chains =>
        let payload : SubmitPayload := multimerPayload chains
        match w.submit with
        | Except.error e => Except.ok ([Event.submitCall payload], multimerExceptionResult e)
        | Except.ok response =>
          if response.status_code = 202 then
            match response.json with
            | Except.error e =>
              Except.ok ([Event.submitCall payload], multimerExceptionResult e)
            | Except.ok job_data =>
              let rest := poll_job_status job_data.jobId w.poll
              Except.ok (Event.submitCall payload :: rest.1, rest.2)
          else
            Except.ok ([Event.submitCall payload],
              multimerRejectedResult response.status_code)

/-- `AlphaFoldBridge.get_status` (lines 313-326): a pure report of local
state; no external call, never raises. `python_version` is the ambient
`sys.version` string. -/
def get_status (b : AlphaFoldBridge) (python_version : String) : StatusReport :=
  { api_available := b.api_key.isSome
    colabfold_available := b.colabfold_available
    python_version := python_version
    module := "alphafold_bridge"
    version := "1.0.0" }

/-! ## Behaviour of one poll attempt -/

/-- A raised status query is caught by `except Exception`: sleep, continue. -/
theorem pollOnce_transportError (job_id : Option String) (w : PollAttemptWorld)
    (e : String) (hq : w.statusQuery = Except.error e) :
    pollOnce job_id w = ([Event.statusQuery, Event.sleep], none) := by
  unfold pollOnce
  rw [hq]

/-- A non-200 response skips the whole `if` body: no sleep, no return. -/
theorem pollOnce_non200 (job_id : Option String) (w : PollAttemptWorld)
    (resp : PollResponse) (hq : w.statusQuery = Except.ok resp)
    (hc : resp.status_code ≠ 200) :
    pollOnce job_id w = ([Event.statusQuery], none) := by
  unfold pollOnce
  rw [hq]
  simp [hc]

/-- A 200 response whose body fails to parse raises inside the `try`:
sleep, continue. -/
theorem pollOnce_jsonError (job_id : Option String) (w : PollAttemptWorld)
    (resp : PollResponse) (e : String) (hq : w.statusQuery = Except.ok resp)
    (hc : resp.status_code = 200) (hj : resp.json = Except.error e) :
    pollOnce job_id w = ([Event.statusQuery, Event.sleep], none) := by
  unfold pollOnce
  rw [hq]
  simp [hc, hj]

/-- Any status other than `completed` and `failed` (including a missing
status field) reaches the `else` branch: sleep, continue. -/
theorem pollOnce_nonterminal (job_id : Option String) (w : PollAttemptWorld)
    (resp : PollResponse) (job_data : StatusJson)
    (hq : w.statusQuery = Except.ok resp) (hc : resp.status_code = 200)
    (hj : resp.json = Except.ok job_data)
    (h1 : job_data.status ≠ some "completed")
    (h2 : job_data.status ≠ some "failed") :
    pollOnce job_id w = ([Event.statusQuery, Event.sleep], none) := by
  unfold pollOnce
  rw [hq]
  simp [hc, hj, h1, h2]

/-- A `failed` status returns the failure dictionary at once. -/
theorem pollOnce_failed (job_id : Option String) (w : PollAttemptWorld)
    (resp : PollResponse) (job_data : StatusJson)
    (hq : w.statusQuery = Except.ok resp) (hc : resp.status_code = 200)
    (hj : resp.json = Except.ok job_data)
    (hs : job_data.status = some "failed") :
    pollOnce job_id w = ([Event.statusQuery], some (jobFailedResult job_id)) := by
  unfold pollOnce
  rw [hq]
  simp [hc, hj, hs]

/-- `completed` with a raising structure-file fetch: the exception is
caught by the loop's handler — sleep, continue. -/
theorem pollOnce_completed_pdbError (job_id : Option String)
    (w : PollAttemptWorld) (resp : PollResponse) (job_data : StatusJson)
    (e : String) (hq : w.statusQuery = Except.ok resp)
    (hc : resp.status_code = 200) (hj : resp.json = Except.ok job_data)
    (hs : job_data.status = some "completed")
    (hp : w.pdbFetch = Except.error e) :
    pollOnce job_id w = ([Event.statusQuery, Event.pdbFetch, Event.sleep], none) := by
  unfold pollOnce
  rw [hq]
  simp [hc, hj, hs, hp]

/-- `completed` with a raising confidence-data fetch: likewise caught —
sleep, continue. -/
theorem pollOnce_completed_confError (job_id : Option String)
    (w : PollAttemptWorld) (resp : PollResponse) (job_data : StatusJson)
    (pdb_data : String) (e : String) (hq : w.statusQuery = Except.ok resp)
    (hc : resp.status_code = 200) (hj : resp.json = Except.ok job_data)
    (hs : job_data.status = some "completed")
    (hp : w.pdbFetch = Except.ok pdb_data)
    (hcf : w.confFetch = Except.error e) :
    pollOnce job_id w =
      ([Event.statusQuery, Event.pdbFetch, Event.confFetch, Event.sleep], none) := by
  unfold pollOnce
  rw [hq]
  simp [hc, hj, hs, hp, hcf]

/-- `completed` with both fetches succeeding returns the success
dictionary. -/
theorem pollOnce_completed_ok (job_id : Option String)
    (w : PollAttemptWorld) (resp : PollResponse) (job_data : StatusJson)
    (pdb_data : String) (confidence_data : ConfidenceJson)
    (hq : w.statusQuery = Except.ok resp) (hc : resp.status_code = 200)
    (hj : resp.json = Except.ok job_data)
    (hs : job_data.status = some "completed")
    (hp : w.pdbFetch = Except.ok pdb_data)
    (hcf : w.confFetch = Except.ok confidence_data) :
    pollOnce job_id w =
      ([Event.statusQuery, Event.pdbFetch, Event.confFetch],
       some (successResult job_id pdb_data confidence_data)) := by
  unfold pollOnce
  rw [hq]
  simp [hc, hj, hs, hp, hcf]

/-! ## Behaviour of the poll loop -/

/-- Exhausted budget: the timeout dictionary. -/
theorem pollLoop_zero (job_id : Option String) (world : Nat → PollAttemptWorld)
    (attempt : Nat) :
    pollLoop job_id world 0 attempt = ([], timeoutResult job_id) := rfl

/-- An attempt that returns stops the loop. -/
theorem pollLoop_stop (job_id : Option String) (world : Nat → PollAttemptWorld)
    (fuel attempt : Nat) (evs : List Event) (r : PredictionResult)
    (h : pollOnce job_id (world attempt) = (evs, some r)) :
    pollLoop job_id world (fuel + 1) attempt = (evs, r) := by
  unfold pollLoop
  rw [h]

/-- An attempt that falls through continues with the next attempt. -/
theorem pollLoop_continue (job_id : Option String)
    (world : Nat → PollAttemptWorld) (fuel attempt : Nat) (evs : List Event)
    (h : pollOnce job_id (world attempt) = (evs, none)) :
    pollLoop job_id world (fuel + 1) attempt =
      (evs ++ (pollLoop job_id world fuel (attempt + 1)).1,
       (pollLoop job_id world fuel (attempt + 1)).2) := by
  conv_lhs => unfold pollLoop
  rw [h]

/-- Every dictionary an attempt can return is tagged `success` or
`failed`. -/
theorem pollOnce_tagged (job_id : Option String) (w : PollAttemptWorld)
    (r : PredictionResult) (h : (pollOnce job_id w).2 = some r) :
    r.status = "success" ∨ r.status = "failed" := by
  rcases hq : w.statusQuery with e | resp
  · rw [pollOnce_transportError job_id w e hq] at h
    simp at h
  · by_cases hc : resp.status_code = 200
    · rcases hj : resp.json with e | job_data
      · rw [pollOnce_jsonError job_id w resp e hq hc hj] at h
        simp at h
      · by_cases h1 : job_data.status = some "completed"
        · rcases hp : w.pdbFetch with e | pdb_data
          · rw [pollOnce_completed_pdbError job_id w resp job_data e hq hc hj h1 hp] at h
            simp at h
          · rcases hcf : w.confFetch with e | confidence_data
            · rw [pollOnce_completed_confError job_id w resp job_data pdb_data e
                hq hc hj h1 hp hcf] at h
              simp at h
            · rw [pollOnce_completed_ok job_id w resp job_data pdb_data
                confidence_data hq hc hj h1 hp hcf] at h
              simp at h
              left
              rw [← h]
              rfl
        · by_cases h2 : job_data.status = some "failed"
          · rw [pollOnce_failed job_id w resp job_data hq hc hj h2] at h
            simp at h
            right
            rw [← h]
            rfl
          · rw [pollOnce_nonterminal job_id w resp job_data hq hc hj h1 h2] at h
            simp at h
    · rw [pollOnce_non200 job_id w resp hq hc] at h
      simp at h

/-- The loop's final dictionary is always tagged `success` or `failed`. -/
theorem pollLoop_tagged (job_id : Option String) (world : Nat → PollAttemptWorld)
    (fuel : Nat) : ∀ attempt : Nat,
    (pollLoop job_id world fuel attempt).2.status = "success" ∨
    (pollLoop job_id world fuel attempt).2.status = "failed" := by
  induction fuel with
  | zero => intro attempt; right; rfl
  | succ n ih =>
    intro attempt
    rcases hp : pollOnce job_id (world attempt) with ⟨evs, res⟩
    rcases res with _ | r
    · rw [pollLoop_continue job_id world n attempt evs hp]
      exact ih (attempt + 1)
    · rw [pollLoop_stop job_id world n attempt evs r hp]
      exact pollOnce_tagged job_id (world attempt) r (by rw [hp])

/-- A loop whose every attempt falls through with the same event list
times out, with `fuel` copies of that event list as the trace. -/
theorem pollLoop_constContinue (job_id : Option String)
    (world : Nat → PollAttemptWorld) (evs : List Event)
    (h : ∀ i : Nat, pollOnce job_id (world i) = (evs, none)) (fuel : Nat) :
    ∀ attempt : Nat,
    pollLoop job_id world fuel attempt =
      ((List.replicate fuel evs).flatten, timeoutResult job_id) := by
  induction fuel with
  | zero => intro attempt; rfl
  | succ n ih =>
    intro attempt
    rw [pollLoop_continue job_id world n attempt evs (h attempt), ih (attempt + 1)]
    simp [List.replicate_succ]

/-- The loop only looks at attempts from its start index on. -/
theorem pollLoop_congr (job_id : Option String)
    (w1 w2 : Nat → PollAttemptWorld) (fuel : Nat) :
    ∀ attempt : Nat, (∀ i : Nat, attempt ≤ i → w1 i = w2 i) →
    pollLoop job_id w1 fuel attempt = pollLoop job_id w2 fuel attempt := by
  induction fuel with
  | zero => intro attempt _; rfl
  | succ n ih =>
    intro attempt h
    unfold pollLoop
    rw [h attempt le_rfl,
      ih (attempt + 1) (fun i hi => h i (le_trans (Nat.le_succ attempt) hi))]

/-- A loop whose every attempt is a pending-style fall-through (query,
sleep, continue) performs one status query per unit of fuel and times
out. -/
theorem pollLoop_pending_count (job_id : Option String)
    (world : Nat → PollAttemptWorld)
    (h : ∀ i : Nat, pollOnce job_id (world i) = ([Event.statusQuery, Event.sleep], none))
    (fuel : Nat) : ∀ attempt : Nat,
    (pollLoop job_id world fuel attempt).1.count Event.statusQuery = fuel ∧
    (pollLoop job_id world fuel attempt).2 = timeoutResult job_id := by
  induction fuel with
  | zero => intro attempt; exact ⟨rfl, rfl⟩
  | succ n ih =>
    intro attempt
    rw [pollLoop_continue job_id world n attempt _ (h attempt)]
    refine ⟨?_, (ih (attempt + 1)).2⟩
    rw [List.count_append, (ih (attempt + 1)).1]
    simp [List.count_cons]
    omega

/-- A loop whose every attempt is a non-200 fall-through (query only, no
sleep) performs one status query per unit of fuel, never sleeps, and
times out. -/
theorem pollLoop_non200_trace (job_id : Option String)
    (world : Nat → PollAttemptWorld)
    (h : ∀ i : Nat, pollOnce job_id (world i) = ([Event.statusQuery], none))
    (fuel : Nat) : ∀ attempt : Nat,
    pollLoop job_id world fuel attempt =
      (List.replicate fuel Event.statusQuery, timeoutResult job_id) := by
  induction fuel with
  | zero => intro attempt; rfl
  | succ n ih =>
    intro attempt
    rw [pollLoop_continue job_id world n attempt _ (h attempt), ih (attempt + 1)]
    simp [List.replicate_succ]

/-! ## Chain expansion -/

/-- Written from the claim's words, for comparison with `buildChains`
(the code's loop): each input sequence replicated by its stoichiometry
count, input order preserved. -/
def expandChains (sequences : List String) (stoichiometry : List Int) :
    List String :=
  (List.zipWith (fun seq count => List.replicate count.toNat seq)
    sequences stoichiometry).flatten

/-- When every sequence has a stoichiometry entry, the code's loop raises
nothing and computes exactly the claimed expansion. -/
theorem buildChains_ok (sequences : List String) :
    ∀ stoichiometry : List Int, sequences.length ≤ stoichiometry.length →
    buildChains sequences stoichiometry =
      Except.ok (expandChains sequences stoichiometry) := by
  induction sequences with
  | nil => intro st _; rfl
  | cons seq rest ih =>
    intro st hlen
    match st with
    | [] => simp at hlen
    | count :: restCounts =>
      have : rest.length ≤ restCounts.length := by
        simpa [Nat.succ_le_succ_iff] using hlen
      unfold buildChains
      rw [ih restCounts this]
      simp [expandChains]

/-- The all-ones default stoichiometry expands to one chain per sequence. -/
theorem expandChains_ones (sequences : List String) :
    expandChains sequences (List.replicate sequences.length 1) = sequences := by
  induction sequences with
  | nil => rfl
  | cons seq rest ih =>
    simp [expandChains, List.replicate_succ] at ih ⊢
    exact ih

/-- With fewer stoichiometry entries than sequences, the code's loop
raises `IndexError` (caught later by `predict_multimer`). -/
theorem buildChains_short (sequences : List String) :
    ∀ stoichiometry : List Int, stoichiometry.length < sequences.length →
    buildChains sequences stoichiometry = Except.error PyErr.indexError := by
  induction sequences with
  | nil => intro st h; simp at h
  | cons seq rest ih =>
    intro st hlen
    match st with
    | [] => rfl
    | count :: restCounts =>
      have : restCounts.length < rest.length := by
        simpa [Nat.succ_lt_succ_iff] using hlen
      unfold buildChains
      rw [ih restCounts this]

/-! ## Behaviour of the facade operations -/

/-- `_predict_via_api` without a credential: no events, fixed dictionary. -/
theorem predict_via_api_noKey (b : AlphaFoldBridge) (sequence job_name : String)
    (num_models : Int) (use_templates : Bool) (w : ApiWorld)
    (hk : b.api_key = none) :
    predict_via_api b sequence job_name num_models use_templates w =
      ([], missingKeyResult) := by
  unfold predict_via_api
  rw [hk]

/-- `_predict_via_api` when the submission POST raises. -/
theorem predict_via_api_submitError (b : AlphaFoldBridge)
    (sequence job_name : String) (num_models : Int) (use_templates : Bool)
    (w : ApiWorld) (key e : String) (hk : b.api_key = some key)
    (hsub : w.submit = Except.error e) :
    predict_via_api b sequence job_name num_models use_templates w =
      ([Event.submitCall (apiPayload sequence num_models use_templates)],
       apiExceptionResult e) := by
  unfold predict_via_api
  rw [hk, hsub]

/-- `_predict_via_api` on a non-202 submission response: one submission
call, failure dictionary with the code and the raw body. -/
theorem predict_via_api_rejected (b : AlphaFoldBridge)
    (sequence job_name : String) (num_models : Int) (use_templates : Bool)
    (w : ApiWorld) (key : String) (response : SubmitResponse)
    (hk : b.api_key = some key) (hsub : w.submit = Except.ok response)
    (hcode : response.status_code ≠ 202) :
    predict_via_api b sequence job_name num_models use_templates w =
      ([Event.submitCall (apiPayload sequence num_models use_templates)],
       submitRejectedResult response.status_code response.text) := by
  unfold predict_via_api
  rw [hk, hsub]
  simp [hcode]

/-- `_predict_via_api` on a 202 response whose body fails to parse. -/
theorem predict_via_api_jsonError (b : AlphaFoldBridge)
    (sequence job_name : String) (num_models : Int) (use_templates : Bool)
    (w : ApiWorld) (key e : String) (response : SubmitResponse)
    (hk : b.api_key = some key) (hsub : w.submit = Except.ok response)
    (hcode : response.status_code = 202) (hj : response.json = Except.error e) :
    predict_via_api b sequence job_name num_models use_templates w =
      ([Event.submitCall (apiPayload sequence num_models use_templates)],
       apiExceptionResult e) := by
  unfold predict_via_api
  rw [hk, hsub]
  simp [hcode, hj]

/-- `_predict_via_api` on an accepted submission: submit event then the
poll loop. -/
theorem predict_via_api_accepted (b : AlphaFoldBridge)
    (sequence job_name : String) (num_models : Int) (use_templates : Bool)
    (w : ApiWorld) (key : String) (response : SubmitResponse)
    (job_data : SubmitJson) (hk : b.api_key = some key)
    (hsub : w.submit = Except.ok response) (hcode : response.status_code = 202)
    (hj : response.json = Except.ok job_data) :
    predict_via_api b sequence job_name num_models use_templates w =
      (Event.submitCall (apiPayload sequence num_models use_templates) ::
        (poll_job_status job_data.jobId w.poll).1,
       (poll_job_status job_data.jobId w.poll).2) := by
  unfold predict_via_api
  rw [hk, hsub]
  simp [hcode, hj]

/-- The dictionary returned by `_predict_via_api` is always tagged. -/
theorem predict_via_api_tagged (b : AlphaFoldBridge)
    (sequence job_name : String) (num_models : Int) (use_templates : Bool)
    (w : ApiWorld) :
    (predict_via_api b sequence job_name num_models use_templates w).2.status = "success" ∨
    (predict_via_api b sequence job_name num_models use_templates w).2.status = "failed" := by
  rcases hk : b.api_key with _ | key
  · rw [predict_via_api_noKey b sequence job_name num_models use_templates w hk]
    right; rfl
  · rcases hsub : w.submit with e | response
    · rw [predict_via_api_submitError b sequence job_name num_models
        use_templates w key e hk hsub]
      right; rfl
    · by_cases hcode : response.status_code = 202
      · rcases hj : response.json with e | job_data
        · rw [predict_via_api_jsonError b sequence job_name num_models
            use_templates w key e response hk hsub hcode hj]
          right; rfl
        · rw [predict_via_api_accepted b sequence job_name num_models
            use_templates w key response job_data hk hsub hcode hj]
          exact pollLoop_tagged job_data.jobId w.poll max_polls 0
      · rw [predict_via_api_rejected b sequence job_name num_models
          use_templates w key response hk hsub hcode]
        right; rfl

/-- `predict_structure` dispatch in the default `api` mode. -/
theorem predict_structure_api (b : AlphaFoldBridge) (c : Config) (w : ApiWorld)
    (s : String) (h1 : c.sequence = some s) (hmode : c.mode.getD "api" = "api") :
    predict_structure b c w =
      Except.ok (predict_via_api b s (c.job_name.getD "holoscript_prediction")
        (c.num_models.getD 5) (c.use_templates.getD false) w) := by
  unfold predict_structure
  rw [h1]
  simp [hmode]

/-- `predict_multimer` without a credential: no events, fixed dictionary. -/
theorem predict_multimer_noKey (b : AlphaFoldBridge) (c : Config) (w : ApiWorld)
    (ss : List String) (hs : c.sequences = some ss) (hk : b.api_key = none) :
    predict_multimer b c w = Except.ok ([], multimerNoKeyResult) := by
  unfold predict_multimer
  rw [hs]
  simp [hk]

/-- `predict_multimer` when the chain-expansion loop raises: the
exception is caught, converted to a failure dictionary, no event. -/
theorem predict_multimer_buildError (b : AlphaFoldBridge) (c : Config)
    (w : ApiWorld) (ss : List String) (key : String) (e : PyErr)
    (hs : c.sequences = some ss) (hk : b.api_key = some key)
    (hch : buildChains ss (c.stoichiometry.getD (List.replicate ss.length 1)) =
      Except.error e) :
    predict_multimer b c w = Except.ok ([], multimerExceptionResult (pyErrMsg e)) := by
  unfold predict_multimer
  rw [hs]
  simp only [hk]
  rw [hch]

/-- `predict_multimer` when the submission POST raises. -/
theorem predict_multimer_submitError (b : AlphaFoldBridge) (c : Config)
    (w : ApiWorld) (ss chains : List String) (key e : String)
    (hs : c.sequences = some ss) (hk : b.api_key = some key)
    (hch : buildChains ss (c.stoichiometry.getD (List.replicate ss.length 1)) =
      Except.ok chains)
    (hsub : w.submit = Except.error e) :
    predict_multimer b c w =
      Except.ok ([Event.submitCall (multimerPayload chains)],
        multimerExceptionResult e) := by
  unfold predict_multimer
  rw [hs]
  simp only [hk]
  rw [hch, hsub]

/-- `predict_multimer` on a non-202 submission response: one submission
call, failure dictionary carrying the code only (no body). -/
theorem predict_multimer_rejected (b : AlphaFoldBridge) (c : Config)
    (w : ApiWorld) (ss chains : List String) (key : String)
    (response : SubmitResponse)
    (hs : c.sequences = some ss) (hk : b.api_key = some key)
    (hch : buildChains ss (c.stoichiometry.getD (List.replicate ss.length 1)) =
      Except.ok chains)
    (hsub : w.submit = Except.ok response) (hcode : response.status_code ≠ 202) :
    predict_multimer b c w =
      Except.ok ([Event.submitCall (multimerPayload chains)],
        multimerRejectedResult response.status_code) := by
  unfold predict_multimer
  rw [hs]
  simp only [hk]
  rw [hch, hsub]
  simp [hcode]

/-- `predict_multimer` on a 202 response whose body fails to parse. -/
theorem predict_multimer_jsonError (b : AlphaFoldBridge) (c : Config)
    (w : ApiWorld) (ss chains : List String) (key e : String)
    (response : SubmitResponse)
    (hs : c.sequences = some ss) (hk : b.api_key = some key)
    (hch : buildChains ss (c.stoichiometry.getD (List.replicate ss.length 1)) =
      Except.ok chains)
    (hsub : w.submit = Except.ok response) (hcode : response.status_code = 202)
    (hj : response.json = Except.error e) :
    predict_multimer b c w =
      Except.ok ([Event.submitCall (multimerPayload chains)],
        multimerExceptionResult e) := by
  unfold predict_multimer
  rw [hs]
  simp only [hk]
  rw [hch, hsub]
  simp [hcode, hj]

/-- `predict_multimer` on an accepted submission: submit event then the
poll loop. -/
theorem predict_multimer_accepted (b : AlphaFoldBridge) (c : Config)
    (w : ApiWorld) (ss chains : List String) (key : String)
    (response : SubmitResponse) (job_data : SubmitJson)
    (hs : c.sequences = some ss) (hk : b.api_key = some key)
    (hch : buildChains ss (c.stoichiometry.getD (List.replicate ss.length 1)) =
      Except.ok chains)
    (hsub : w.submit = Except.ok response) (hcode : response.status_code = 202)
    (hj : response.json = Except.ok job_data) :
    predict_multimer b c w =
      Except.ok (Event.submitCall (multimerPayload chains) ::
        (poll_job_status job_data.jobId w.poll).1,
       (poll_job_status job_data.jobId w.poll).2) := by
  unfold predict_multimer
  rw [hs]
  simp only [hk]
  rw [hch, hsub]
  simp [hcode, hj]

/-- `predict_structure` dispatch in `local` mode. -/
theorem predict_structure_local (b : AlphaFoldBridge) (c : Config) (w : ApiWorld)
    (s : String) (h1 : c.sequence = some s) (hmode : c.mode.getD "api" = "local") :
    predict_structure b c w =
      Except.ok (predict_via_colabfold b s (c.job_name.getD "holoscript_prediction")
        (c.num_models.getD 5)) := by
  unfold predict_structure
  rw [h1]
  simp [hmode]

/-- `predict_structure` dispatch on an unrecognized mode. -/
theorem predict_structure_unknownMode (b : AlphaFoldBridge) (c : Config)
    (w : ApiWorld) (s : String) (h1 : c.sequence = some s)
    (hm1 : c.mode.getD "api" ≠ "api") (hm2 : c.mode.getD "api" ≠ "local") :
    predict_structure b c w =
      Except.ok ([], unknownModeResult (c.mode.getD "api")) := by
  unfold predict_structure
  rw [h1]
  simp [hm1, hm2]

/-- Both dictionaries of the local path are tagged `failed`. -/
theorem predict_via_colabfold_tagged (b : AlphaFoldBridge)
    (sequence job_name : String) (num_models : Int) :
    (predict_via_colabfold b sequence job_name num_models).2.status = "failed" := by
  cases hb : b.colabfold_available <;>
    simp [predict_via_colabfold, hb, colabfoldStubResult, colabfoldUnavailableResult]

/-- With the mandatory `sequence` key present, `predict_structure` raises
nothing and returns a tagged dictionary, whatever the mode and the
network behaviour. -/
theorem predict_structure_tagged (b : AlphaFoldBridge) (c : Config)
    (w : ApiWorld) (s : String) (h1 : c.sequence = some s) :
    ∃ evs r, predict_structure b c w = Except.ok (evs, r) ∧
      (r.status = "success" ∨ r.status = "failed") := by
  by_cases hmode : c.mode.getD "api" = "api"
  · exact ⟨_, _, predict_structure_api b c w s h1 hmode,
      predict_via_api_tagged b s (c.job_name.getD "holoscript_prediction")
        (c.num_models.getD 5) (c.use_templates.getD false) w⟩
  · by_cases hloc : c.mode.getD "api" = "local"
    · exact ⟨_, _, predict_structure_local b c w s h1 hloc,
        Or.inr (predict_via_colabfold_tagged b s
          (c.job_name.getD "holoscript_prediction") (c.num_models.getD 5))⟩
    · exact ⟨_, _, predict_structure_unknownMode b c w s h1 hmode hloc,
        Or.inr rfl⟩

/-- With the mandatory `sequences` key present, `predict_multimer` raises
nothing and returns a tagged dictionary, whatever the stoichiometry and
the network behaviour. -/
theorem predict_multimer_tagged (b : AlphaFoldBridge) (c : Config)
    (w : ApiWorld) (ss : List String) (hs : c.sequences = some ss) :
    ∃ evs r, predict_multimer b c w = Except.ok (evs, r) ∧
      (r.status = "success" ∨ r.status = "failed") := by
  rcases hk : b.api_key with _ | key
  · exact ⟨[], multimerNoKeyResult, predict_multimer_noKey b c w ss hs hk,
      Or.inr rfl⟩
  · rcases hch : buildChains ss (c.stoichiometry.getD (List.replicate ss.length 1))
      with e | chains
    · exact ⟨_, _, predict_multimer_buildError b c w ss key e hs hk hch,
        Or.inr rfl⟩
    · rcases hsub : w.submit with e | response
      · exact ⟨_, _, predict_multimer_submitError b c w ss chains key e hs hk hch hsub,
          Or.inr rfl⟩
      · by_cases hcode : response.status_code = 202
        · rcases hj : response.json with e | job_data
          · exact ⟨_, _, predict_multimer_jsonError b c w ss chains key e response
              hs hk hch hsub hcode hj, Or.inr rfl⟩
          · exact ⟨_, _, predict_multimer_accepted b c w ss chains key response
              job_data hs hk hch hsub hcode hj,
              pollLoop_tagged job_data.jobId w.poll max_polls 0⟩
        · exact ⟨_, _, predict_multimer_rejected b c w ss chains key response
            hs hk hch hsub hcode, Or.inr rfl⟩

/-! ## Concrete fixtures -/

/-- A poll world where every network call raises. -/
def offlineAttempt : PollAttemptWorld :=
  { statusQuery := Except.error "ConnectionError"
    pdbFetch := Except.error "ConnectionError"
    confFetch := Except.error "ConnectionError" }

/-- A whole-call world where every network call raises. -/
def offlineWorld : ApiWorld :=
  { submit := Except.error "ConnectionError"
    poll := fun _ => offlineAttempt }

/-- Bridge constructed with an explicit api key, ColabFold absent. -/
def bridgeWithKey : AlphaFoldBridge :=
  { api_key := some "test-key", colabfold_available := false }

/-- Bridge with no credential at all. -/
def bridgeNoKey : AlphaFoldBridge :=
  { api_key := none, colabfold_available := false }

/-- A minimal single-sequence configuration. -/
def cfgSeq : Config := { sequence := some "MKTAYIAK" }

/-- A multimer configuration: two sequences, stoichiometry `[2, 1]`. -/
def cfgSeqs : Config :=
  { sequences := some ["A", "B"], stoichiometry := some [2, 1] }

/-- A multimer configuration with fewer stoichiometry entries than
sequences. -/
def cfgShortStoich : Config :=
  { sequences := some ["A", "B", "C"], stoichiometry := some [2] }

/-- A status query answering 200 / `pending`. -/
def pendingResponse : PollResponse :=
  { status_code := 200, json := Except.ok { status := some "pending" } }

/-- A poll attempt that always reports `pending`. -/
def pendingAttempt : PollAttemptWorld :=
  { statusQuery := Except.ok pendingResponse
    pdbFetch := Except.error "unused"
    confFetch := Except.error "unused" }

/-- A status query answering 200 / `failed`. -/
def failedResponse : PollResponse :=
  { status_code := 200, json := Except.ok { status := some "failed" } }

/-- A poll attempt that reports `failed`. -/
def failedAttempt : PollAttemptWorld :=
  { statusQuery := Except.ok failedResponse
    pdbFetch := Except.error "unused"
    confFetch := Except.error "unused" }

/-- A status query answering HTTP 503. -/
def serverErrorAttempt : PollAttemptWorld :=
  { statusQuery := Except.ok { status_code := 503, json := Except.error "unused" }
    pdbFetch := Except.error "unused"
    confFetch := Except.error "unused" }

/-- A status query answering 200 with an unrecognized status string. -/
def unknownStatusAttempt : PollAttemptWorld :=
  { statusQuery := Except.ok { status_code := 200, json := Except.ok { status := some "queued" } }
    pdbFetch := Except.error "unused"
    confFetch := Except.error "unused" }

/-- A `completed` status body with both artifact URLs. -/
def completedStatusJson : StatusJson :=
  { status := some "completed"
    pdbUrl := some "https://results/structure.pdb"
    confidenceUrl := some "https://results/confidence.json" }

/-- A status query answering 200 / `completed`. -/
def completedResponse : PollResponse :=
  { status_code := 200, json := Except.ok completedStatusJson }

/-- `completed`, but the structure-file fetch raises. -/
def fetchFailAttempt : PollAttemptWorld :=
  { statusQuery := Except.ok completedResponse
    pdbFetch := Except.error "ConnectionError"
    confFetch := Except.error "ConnectionError" }

/-- A small confidence payload. -/
def sampleConfidence : ConfidenceJson :=
  { plddt := some [90, 85], meanPlddt := some 87, pae := none }

/-- `completed` with both fetches succeeding. -/
def fetchOkAttempt : PollAttemptWorld :=
  { statusQuery := Except.ok completedResponse
    pdbFetch := Except.ok "PDB DATA"
    confFetch := Except.ok sampleConfidence }

/-- First attempt: completed but the fetch raises; afterwards: clean
completion. -/
def c2World : Nat → PollAttemptWorld :=
  fun i => if i = 0 then fetchFailAttempt else fetchOkAttempt

/-- A rejected (HTTP 500) submission response with a distinctive body. -/
def rejectedSubmitResponse : SubmitResponse :=
  { status_code := 500, text := "server oops", json := Except.ok { jobId := none } }

/-- A world whose submission is rejected with HTTP 500. -/
def rejectWorld : ApiWorld :=
  { submit := Except.ok rejectedSubmitResponse
    poll := fun _ => offlineAttempt }

/-! ## Claims -/

/-- **C1**, counterexample. The claim says no exception crosses the public
boundary for any input configuration. But `config['sequence']` (line 77)
and `config['sequences']` (line 265) are unguarded mandatory lookups
outside any `try`: on a configuration missing the key, the operation
raises `KeyError` instead of returning a tagged result. -/
theorem C1_counterexample :
    predict_structure bridgeWithKey {} offlineWorld =
      Except.error (PyErr.keyError "sequence") ∧
    predict_multimer bridgeWithKey {} offlineWorld =
      Except.error (PyErr.keyError "sequences") := by
  constructor <;> rfl

/-- **C1**, amended. Whenever the configuration carries the mandatory key
(`sequence` for `predict_structure`, `sequences` for `predict_multimer`),
the operation raises nothing and returns a dictionary tagged
`success` or `failed`, for every bridge state and network behaviour;
`get_status` is a pure report of local state and never raises. Without
the mandatory key a `KeyError` crosses the boundary, as the
counterexample above shows. -/
theorem C1_tagged_total (b : AlphaFoldBridge) (c1 c2 : Config)
    (w1 w2 : ApiWorld) (python_version : String) (s : String)
    (ss : List String)
    (h1 : c1.sequence = some s) (h2 : c2.sequences = some ss) :
    (∃ evs r, predict_structure b c1 w1 = Except.ok (evs, r) ∧
      (r.status = "success" ∨ r.status = "failed")) ∧
    (∃ evs r, predict_multimer b c2 w2 = Except.ok (evs, r) ∧
      (r.status = "success" ∨ r.status = "failed")) ∧
    get_status b python_version =
      { api_available := b.api_key.isSome
        colabfold_available := b.colabfold_available
        python_version := python_version
        module := "alphafold_bridge"
        version := "1.0.0" } :=
  ⟨predict_structure_tagged b c1 w1 s h1,
   predict_multimer_tagged b c2 w2 ss h2, rfl⟩

/-- Witness for `C1_tagged_total` at concrete inputs. -/
theorem C1_witness :
    (∃ evs r, predict_structure bridgeWithKey cfgSeq offlineWorld =
      Except.ok (evs, r) ∧ (r.status = "success" ∨ r.status = "failed")) ∧
    (∃ evs r, predict_multimer bridgeWithKey cfgSeqs offlineWorld =
      Except.ok (evs, r) ∧ (r.status = "success" ∨ r.status = "failed")) ∧
    get_status bridgeWithKey "3.12.0" =
      { api_available := true
        colabfold_available := false
        python_version := "3.12.0"
        module := "alphafold_bridge"
        version := "1.0.0" } :=
  C1_tagged_total bridgeWithKey cfgSeq cfgSeqs offlineWorld offlineWorld
    "3.12.0" "MKTAYIAK" ["A", "B"] rfl rfl

/-- **C2**, counterexample. First poll: `completed` but the structure-file
fetch raises; second poll: clean completion. The poller returns `success`
after two status queries — the fetch failure was caught by the loop's own
`except` (line 204), which slept and kept polling; it did not propagate
to the caller as a generic operation failure. -/
theorem C2_counterexample :
    (poll_job_status (some "job-1") c2World).1 =
      [Event.statusQuery, Event.pdbFetch, Event.sleep,
       Event.statusQuery, Event.pdbFetch, Event.confFetch] ∧
    (poll_job_status (some "job-1") c2World).2.status = "success" := by
  constructor <;> rfl

/-- **C2**, amended. A failure during either artifact fetch after a
`completed` status is caught inside `_poll_job_status` by the loop's
generic exception handler: the iteration produces no result, a sleep is
performed, and the loop continues with the next attempt — the failure is
not surfaced to the caller at that attempt. -/
theorem C2_fetch_swallowed (job_id : Option String)
    (world : Nat → PollAttemptWorld) (fuel attempt : Nat)
    (resp : PollResponse) (job_data : StatusJson)
    (hq : (world attempt).statusQuery = Except.ok resp)
    (hc : resp.status_code = 200) (hj : resp.json = Except.ok job_data)
    (hs : job_data.status = some "completed")
    (hf : (∃ e, (world attempt).pdbFetch = Except.error e) ∨
          (∃ pdb e, (world attempt).pdbFetch = Except.ok pdb ∧
            (world attempt).confFetch = Except.error e)) :
    (pollOnce job_id (world attempt)).2 = none ∧
    Event.sleep ∈ (pollOnce job_id (world attempt)).1 ∧
    pollLoop job_id world (fuel + 1) attempt =
      ((pollOnce job_id (world attempt)).1 ++
        (pollLoop job_id world fuel (attempt + 1)).1,
       (pollLoop job_id world fuel (attempt + 1)).2) := by
  rcases hf with ⟨e, hp⟩ | ⟨pdb, e, hp, hcf⟩
  · have h0 := pollOnce_completed_pdbError job_id (world attempt) resp job_data
      e hq hc hj hs hp
    rw [h0]
    exact ⟨rfl, by decide, pollLoop_continue job_id world fuel attempt _ h0⟩
  · have h0 := pollOnce_completed_confError job_id (world attempt) resp job_data
      pdb e hq hc hj hs hp hcf
    rw [h0]
    exact ⟨rfl, by decide, pollLoop_continue job_id world fuel attempt _ h0⟩

/-- Witness for `C2_fetch_swallowed` at concrete inputs. -/
theorem C2_witness :
    (pollOnce (some "job-1") (c2World 0)).2 = none ∧
    Event.sleep ∈ (pollOnce (some "job-1") (c2World 0)).1 ∧
    pollLoop (some "job-1") c2World 60 0 =
      ((pollOnce (some "job-1") (c2World 0)).1 ++
        (pollLoop (some "job-1") c2World 59 1).1,
       (pollLoop (some "job-1") c2World 59 1).2) :=
  C2_fetch_swallowed (some "job-1") c2World 59 0 completedResponse
    completedStatusJson rfl rfl rfl rfl (Or.inl ⟨"ConnectionError", rfl⟩)

/-- **C3**. With every status query answering 200 and a `pending` status,
the loop performs exactly 60 status queries and returns the failure
dictionary carrying the timeout message and the job id. -/
theorem C3_pending_timeout (job_id : Option String)
    (world : Nat → PollAttemptWorld)
    (h : ∀ i : Nat, ∃ resp : PollResponse, ∃ jd : StatusJson,
      (world i).statusQuery = Except.ok resp ∧ resp.status_code = 200 ∧
      resp.json = Except.ok jd ∧ jd.status = some "pending") :
    (poll_job_status job_id world).1.count Event.statusQuery = 60 ∧
    (poll_job_status job_id world).2 =
      { status := "failed", error := some "Job timeout after 10 minutes",
        job_id := job_id } := by
  have hall : ∀ i, pollOnce job_id (world i) =
      ([Event.statusQuery, Event.sleep], none) := by
    intro i
    obtain ⟨resp, jd, hq, hc, hj, hjs⟩ := h i
    refine pollOnce_nonterminal job_id (world i) resp jd hq hc hj ?_ ?_ <;>
      rw [hjs] <;> decide
  exact pollLoop_pending_count job_id world hall 60 0

/-- Witness for `C3_pending_timeout` at concrete inputs. -/
theorem C3_witness :
    (poll_job_status (some "job-1") (fun _ => pendingAttempt)).1.count
      Event.statusQuery = 60 ∧
    (poll_job_status (some "job-1") (fun _ => pendingAttempt)).2 =
      { status := "failed", error := some "Job timeout after 10 minutes",
        job_id := some "job-1" } :=
  C3_pending_timeout (some "job-1") (fun _ => pendingAttempt)
    (fun _ => ⟨pendingResponse, { status := some "pending" }, rfl, rfl, rfl, rfl⟩)

/-- **C4**, counterexample. A 500 submission response with body
`"server oops"` to `predict_multimer`: the result carries the status code
in its error string but has no `message` key at all — the response body
is dropped, not carried verbatim as the claim states. -/
theorem C4_counterexample :
    predict_multimer bridgeWithKey cfgSeqs rejectWorld =
      Except.ok ([Event.submitCall (multimerPayload ["A", "A", "B"])],
        { status := "failed", error := some "Multimer API request failed: 500" }) ∧
    (multimerRejectedResult 500).message = none := by
  constructor <;> rfl

/-- **C4**, amended. On a submission response with a status code other
than 202, both operations return `Failure` carrying that status code
verbatim and perform exactly one submission call (no retry);
`predict_structure`'s remote path also carries the response body verbatim
in its `message` field, but `predict_multimer` drops the body. -/
theorem C4_rejected_no_retry (b : AlphaFoldBridge) (key : String)
    (c1 c2 : Config) (w : ApiWorld) (response : SubmitResponse)
    (s : String) (ss chains : List String)
    (hk : b.api_key = some key)
    (hsub : w.submit = Except.ok response) (hcode : response.status_code ≠ 202)
    (h1 : c1.sequence = some s) (hmode : c1.mode.getD "api" = "api")
    (h2 : c2.sequences = some ss)
    (hch : buildChains ss (c2.stoichiometry.getD (List.replicate ss.length 1)) =
      Except.ok chains) :
    predict_structure b c1 w =
      Except.ok ([Event.submitCall
          (apiPayload s (c1.num_models.getD 5) (c1.use_templates.getD false))],
        submitRejectedResult response.status_code response.text) ∧
    predict_multimer b c2 w =
      Except.ok ([Event.submitCall (multimerPayload chains)],
        multimerRejectedResult response.status_code) := by
  constructor
  · rw [predict_structure_api b c1 w s h1 hmode,
      predict_via_api_rejected b s (c1.job_name.getD "holoscript_prediction")
        (c1.num_models.getD 5) (c1.use_templates.getD false) w key response
        hk hsub hcode]
  · exact predict_multimer_rejected b c2 w ss chains key response
      h2 hk hch hsub hcode

/-- Witness for `C4_rejected_no_retry` at concrete inputs. -/
theorem C4_witness :
    predict_structure bridgeWithKey cfgSeq rejectWorld =
      Except.ok ([Event.submitCall (apiPayload "MKTAYIAK" 5 false)],
        submitRejectedResult 500 "server oops") ∧
    predict_multimer bridgeWithKey cfgSeqs rejectWorld =
      Except.ok ([Event.submitCall (multimerPayload ["A", "A", "B"])],
        multimerRejectedResult 500) :=
  C4_rejected_no_retry bridgeWithKey "test-key" cfgSeq cfgSeqs rejectWorld
    rejectedSubmitResponse "MKTAYIAK" ["A", "B"] ["A", "A", "B"]
    rfl rfl (by decide) rfl rfl rfl (by decide)

/-- **C5**. With no credential configured, both operations return the
missing-credential failure dictionary with an empty event trace — zero
transport calls. -/
theorem C5_missing_credential (b : AlphaFoldBridge) (c1 c2 : Config)
    (w1 w2 : ApiWorld) (s : String) (ss : List String)
    (hk : b.api_key = none)
    (h1 : c1.sequence = some s) (hmode : c1.mode.getD "api" = "api")
    (h2 : c2.sequences = some ss) :
    predict_structure b c1 w1 = Except.ok ([], missingKeyResult) ∧
    predict_multimer b c2 w2 = Except.ok ([], multimerNoKeyResult) := by
  constructor
  · rw [predict_structure_api b c1 w1 s h1 hmode,
      predict_via_api_noKey b s (c1.job_name.getD "holoscript_prediction")
        (c1.num_models.getD 5) (c1.use_templates.getD false) w1 hk]
  · exact predict_multimer_noKey b c2 w2 ss h2 hk

/-- Witness for `C5_missing_credential` at concrete inputs. -/
theorem C5_witness :
    predict_structure bridgeNoKey cfgSeq offlineWorld =
      Except.ok ([], missingKeyResult) ∧
    predict_multimer bridgeNoKey cfgSeqs offlineWorld =
      Except.ok ([], multimerNoKeyResult) :=
  C5_missing_credential bridgeNoKey cfgSeq cfgSeqs offlineWorld offlineWorld
    "MKTAYIAK" ["A", "B"] rfl rfl rfl rfl

/-- **C6**. A `failed` status at any attempt (any start index, any
remaining budget) terminates the loop with exactly one further status
query and returns the failure dictionary with the generic message and the
job id preserved. -/
theorem C6_failed_terminates (job_id : Option String)
    (world : Nat → PollAttemptWorld) (fuel attempt : Nat)
    (resp : PollResponse) (job_data : StatusJson)
    (hq : (world attempt).statusQuery = Except.ok resp)
    (hc : resp.status_code = 200) (hj : resp.json = Except.ok job_data)
    (hs : job_data.status = some "failed") :
    pollLoop job_id world (fuel + 1) attempt =
      ([Event.statusQuery],
       { status := "failed", error := some "Prediction job failed",
         job_id := job_id }) :=
  pollLoop_stop job_id world fuel attempt _ _
    (pollOnce_failed job_id (world attempt) resp job_data hq hc hj hs)

/-- Witness for `C6_failed_terminates` at concrete inputs. -/
theorem C6_witness :
    pollLoop (some "job-1") (fun _ => failedAttempt) 60 0 =
      ([Event.statusQuery],
       { status := "failed", error := some "Prediction job failed",
         job_id := some "job-1" }) :=
  C6_failed_terminates (some "job-1") (fun _ => failedAttempt) 59 0
    failedResponse { status := some "failed" } rfl rfl rfl rfl

/-- **C7**. With a credential and every sequence having a stoichiometry
entry (which holds in particular for the all-ones default), the code's
chain loop computes exactly the claimed expansion — each sequence
replicated by its count, input order preserved — the all-ones default
expands to one chain per sequence, and the submitted payload carries that
expansion. -/
theorem C7_chain_expansion (b : AlphaFoldBridge) (key : String) (c : Config)
    (w : ApiWorld) (ss : List String)
    (hk : b.api_key = some key) (hs : c.sequences = some ss)
    (hlen : ss.length ≤ (c.stoichiometry.getD (List.replicate ss.length 1)).length) :
    buildChains ss (c.stoichiometry.getD (List.replicate ss.length 1)) =
      Except.ok (expandChains ss (c.stoichiometry.getD (List.replicate ss.length 1))) ∧
    expandChains ss (List.replicate ss.length 1) = ss ∧
    ∃ rest r, predict_multimer b c w =
      Except.ok (Event.submitCall (multimerPayload
        (expandChains ss (c.stoichiometry.getD (List.replicate ss.length 1)))) ::
        rest, r) := by
  have hch := buildChains_ok ss _ hlen
  refine ⟨hch, expandChains_ones ss, ?_⟩
  rcases hsub : w.submit with e | response
  · exact ⟨[], multimerExceptionResult e,
      predict_multimer_submitError b c w ss _ key e hs hk hch hsub⟩
  · by_cases hcode : response.status_code = 202
    · rcases hj : response.json with e | job_data
      · exact ⟨[], multimerExceptionResult e,
          predict_multimer_jsonError b c w ss _ key e response hs hk hch
            hsub hcode hj⟩
      · exact ⟨(poll_job_status job_data.jobId w.poll).1,
          (poll_job_status job_data.jobId w.poll).2,
          predict_multimer_accepted b c w ss _ key response job_data hs hk hch
            hsub hcode hj⟩
    · exact ⟨[], multimerRejectedResult response.status_code,
        predict_multimer_rejected b c w ss _ key response hs hk hch hsub hcode⟩

/-- Witness for `C7_chain_expansion` at concrete inputs. -/
theorem C7_witness :
    buildChains ["A", "B"] [2, 1] =
      Except.ok (expandChains ["A", "B"] [2, 1]) ∧
    expandChains ["A", "B"] (List.replicate 2 1) = ["A", "B"] ∧
    ∃ rest r, predict_multimer bridgeWithKey cfgSeqs offlineWorld =
      Except.ok (Event.submitCall (multimerPayload
        (expandChains ["A", "B"] [2, 1])) :: rest, r) :=
  C7_chain_expansion bridgeWithKey "test-key" cfgSeqs offlineWorld ["A", "B"]
    rfl rfl (by decide)

/-- **C8**. A 200 response whose status string is neither `completed` nor
`failed` — including an empty or missing status field — makes the
iteration sleep, consume the attempt and continue, and the whole loop
behaves exactly as if that attempt had answered `pending`. -/
theorem C8_unknown_like_pending (job_id : Option String)
    (world : Nat → PollAttemptWorld) (fuel attempt : Nat)
    (resp : PollResponse) (job_data : StatusJson)
    (hq : (world attempt).statusQuery = Except.ok resp)
    (hc : resp.status_code = 200) (hj : resp.json = Except.ok job_data)
    (h1 : job_data.status ≠ some "completed")
    (h2 : job_data.status ≠ some "failed") :
    pollOnce job_id (world attempt) = ([Event.statusQuery, Event.sleep], none) ∧
    pollLoop job_id world (fuel + 1) attempt =
      ([Event.statusQuery, Event.sleep] ++
        (pollLoop job_id world fuel (attempt + 1)).1,
       (pollLoop job_id world fuel (attempt + 1)).2) ∧
    pollLoop job_id world (fuel + 1) attempt =
      pollLoop job_id (Function.update world attempt pendingAttempt)
        (fuel + 1) attempt := by
  have h0 := pollOnce_nonterminal job_id (world attempt) resp job_data
    hq hc hj h1 h2
  have hcont := pollLoop_continue job_id world fuel attempt _ h0
  have hpend : pollOnce job_id
      (Function.update world attempt pendingAttempt attempt) =
      ([Event.statusQuery, Event.sleep], none) := by
    rw [Function.update_same]
    rfl
  have hcont2 := pollLoop_continue job_id
    (Function.update world attempt pendingAttempt) fuel attempt _ hpend
  have hagree : ∀ i : Nat, attempt + 1 ≤ i →
      world i = Function.update world attempt pendingAttempt i := by
    intro i hi
    rw [Function.update_noteq (by omega)]
  refine ⟨h0, hcont, ?_⟩
  rw [hcont, hcont2,
    pollLoop_congr job_id world (Function.update world attempt pendingAttempt)
      fuel (attempt + 1) hagree]

/-- Witness for `C8_unknown_like_pending` at concrete inputs. -/
theorem C8_witness :
    pollOnce (some "job-1") ((fun _ => unknownStatusAttempt) 0) =
      ([Event.statusQuery, Event.sleep], none) ∧
    pollLoop (some "job-1") (fun _ => unknownStatusAttempt) 60 0 =
      ([Event.statusQuery, Event.sleep] ++
        (pollLoop (some "job-1") (fun _ => unknownStatusAttempt) 59 1).1,
       (pollLoop (some "job-1") (fun _ => unknownStatusAttempt) 59 1).2) ∧
    pollLoop (some "job-1") (fun _ => unknownStatusAttempt) 60 0 =
      pollLoop (some "job-1")
        (Function.update (fun _ => unknownStatusAttempt) 0 pendingAttempt) 60 0 :=
  C8_unknown_like_pending (some "job-1") (fun _ => unknownStatusAttempt) 59 0
    { status_code := 200, json := Except.ok { status := some "queued" } }
    { status := some "queued" } rfl rfl rfl (by decide) (by decide)

/-- **C9**. When every status query answers with a non-200 code, each
attempt is consumed silently — no sleep, no termination — and the full
run performs exactly 60 status queries with no inter-attempt wait before
returning the timeout failure. -/
theorem C9_non200_no_wait (job_id : Option String)
    (world : Nat → PollAttemptWorld)
    (h : ∀ i : Nat, ∃ resp : PollResponse,
      (world i).statusQuery = Except.ok resp ∧ resp.status_code ≠ 200) :
    (poll_job_status job_id world).1 = List.replicate 60 Event.statusQuery ∧
    Event.sleep ∉ (poll_job_status job_id world).1 ∧
    (poll_job_status job_id world).2 =
      { status := "failed", error := some "Job timeout after 10 minutes",
        job_id := job_id } := by
  have hall : ∀ i, pollOnce job_id (world i) = ([Event.statusQuery], none) := by
    intro i
    obtain ⟨resp, hq, hc⟩ := h i
    exact pollOnce_non200 job_id (world i) resp hq hc
  have hloop := pollLoop_non200_trace job_id world hall max_polls 0
  unfold poll_job_status
  rw [hloop]
  refine ⟨rfl, ?_, rfl⟩
  show Event.sleep ∉ List.replicate 60 Event.statusQuery
  decide

/-- Witness for `C9_non200_no_wait` at concrete inputs. -/
theorem C9_witness :
    (poll_job_status (some "job-1") (fun _ => serverErrorAttempt)).1 =
      List.replicate 60 Event.statusQuery ∧
    Event.sleep ∉ (poll_job_status (some "job-1") (fun _ => serverErrorAttempt)).1 ∧
    (poll_job_status (some "job-1") (fun _ => serverErrorAttempt)).2 =
      { status := "failed", error := some "Job timeout after 10 minutes",
        job_id := some "job-1" } :=
  C9_non200_no_wait (some "job-1") (fun _ => serverErrorAttempt)
    (fun _ => ⟨{ status_code := 503, json := Except.error "unused" }, rfl,
      by decide⟩)

/-- **C10**. With a credential and a stoichiometry list shorter than the
sequences list, the out-of-range `stoichiometry[i]` raises `IndexError`
inside the `try`, which `predict_multimer` catches and converts to a
failure dictionary — no exception reaches the caller and no network call
is made. -/
theorem C10_short_stoichiometry (b : AlphaFoldBridge) (key : String)
    (c : Config) (w : ApiWorld) (ss : List String) (st : List Int)
    (hk : b.api_key = some key) (hs : c.sequences = some ss)
    (hst : c.stoichiometry = some st) (hlen : st.length < ss.length) :
    predict_multimer b c w = Except.ok ([],
      { status := "failed", error := some "list index out of range",
        message := some "Multimer prediction failed: list index out of range" }) := by
  have hch : buildChains ss (c.stoichiometry.getD (List.replicate ss.length 1)) =
      Except.error PyErr.indexError := by
    rw [hst]
    exact buildChains_short ss st hlen
  exact predict_multimer_buildError b c w ss key PyErr.indexError hs hk hch

/-- Witness for `C10_short_stoichiometry` at concrete inputs. -/
theorem C10_witness :
    predict_multimer bridgeWithKey cfgShortStoich offlineWorld = Except.ok ([],
      { status := "failed", error := some "list index out of range",
        message := some "Multimer prediction failed: list index out of range" }) :=
  C10_short_stoichiometry bridgeWithKey "test-key" cfgShortStoich offlineWorld
    ["A", "B", "C"] [2] rfl rfl rfl (by decide)

end AlphaFold
